import Mathlib

/-!
Verification of the recurring-event scheduler in src/main.go.

The source is shallowly embedded as follows.

Calendar dates are a count of civil days since 1970-01-01 (a Thursday);
instants are minutes of local wall-clock time, date * 1440 + hour * 60 + minute.
Go `time.Weekday` numbering is Sunday = 0 .. Saturday = 6.

The Google Calendar gateway is modelled by oracles: `ins : Nat → Except String String`
gives the result of the n-th insert request issued during a run (the returned
event id on success), and `del : String → Except String Unit` gives the result of
a delete request for a given id.  Every remote request a run issues is recorded
in an `Op` trace, and the final write of `event_ids.json` is recorded as a
`saveStore` element of the same trace.

The persisted store file is modelled at the JSON syntax-tree level: a `Json`
value (the string layer of encoding/json is the external library); an absent
file is `none`.
-/

/-- Weekday number of a civil day counted from 1970-01-01, which was a
Thursday; Sunday = 0 .. Saturday = 6, matching Go `time.Weekday`. -/
def weekday (d : Nat) : Nat := (d + 4) % 7

/-- Embeds src/main.go line 85: `daysUntilMonday := (8 - int(now.Weekday())) % 7`. -/
def daysUntilMonday (now : Nat) : Nat := (8 - weekday now) % 7

/-- Embeds src/main.go line 86: `startDate := now.AddDate(0, 0, daysUntilMonday)`. -/
def nextWeekStart (now : Nat) : Nat := now + daysUntilMonday now

/-- Splits a character list at its first colon; `none` when no colon occurs.
Helper for the embedding of Go `time.Parse("15:04", s)`. -/
def splitColon : List Char → Option (List Char × List Char)
  | [] => none
  | c :: cs =>
    if c = ':' then some ([], cs)
    else
      match splitColon cs with
      | none => none
      | some p => some (c :: p.1, p.2)

/-- Decimal value of a digit list. -/
def digitsVal (cs : List Char) : Nat :=
  cs.foldl (fun a c => a * 10 + (c.toNat - 48)) 0

/-- Embeds Go `time.Parse("15:04", s)` as used at src/main.go line 95: a one- or
two-digit hour below 24, a colon, and a two-digit minute below 60; anything
else is a parse error. -/
def parseHM (s : String) : Option (Nat × Nat) :=
  match splitColon s.toList with
  | none => none
  | some p =>
    if 1 ≤ p.1.length ∧ p.1.length ≤ 2 ∧ p.2.length = 2 ∧
        p.1.all Char.isDigit ∧ p.2.all Char.isDigit then
      if digitsVal p.1 ≤ 23 ∧ digitsVal p.2 ≤ 59 then
        some (digitsVal p.1, digitsVal p.2)
      else none
    else none

/-- Embeds the `EventTemplate` struct of src/main.go lines 19-27.  `duration`
is in minutes; `daysOfWeek` holds Go weekday numbers (Sunday = 0). -/
structure EventTemplate where
  summary : String
  description : String
  startTime : String
  duration : Nat
  daysOfWeek : List Nat
  reminderMin : Int
  colorId : String
  deriving DecidableEq, Repr

/-- Embeds the fields of `calendar.Event` populated at src/main.go lines
107-130.  Start and end instants are minutes of local wall-clock time. -/
structure CalEvent where
  summary : String
  description : String
  startDateTime : Nat
  endDateTime : Nat
  timeZone : String
  recurrence : List String
  colorId : String
  reminderOverrides : List (String × Int)
  useDefault : Bool
  deriving DecidableEq, Repr

/-- One effect issued by a run: a remote-calendar request (the four gateway
operations of the Google Calendar API surface used by the program) or the
final write of the identity-store file `event_ids.json`. -/
inductive Op where
  | insert (calendarId : String) (event : CalEvent)
  | get (calendarId : String) (eventId : String)
  | update (calendarId : String) (eventId : String) (event : CalEvent)
  | delete (calendarId : String) (eventId : String)
  | saveStore (eventIds : List (String × String))
  deriving DecidableEq, Repr

/-- True exactly on `get` and `update` operations. -/
def Op.isGetOrUpdate : Op → Bool
  | Op.get _ _ => true
  | Op.update _ _ _ => true
  | _ => false

/-- True exactly on `insert` operations. -/
def Op.isInsert : Op → Bool
  | Op.insert _ _ => true
  | _ => false

/-- True exactly on `delete` operations. -/
def Op.isDelete : Op → Bool
  | Op.delete _ _ => true
  | _ => false

/-- True exactly on `saveStore` operations. -/
def Op.isSave : Op → Bool
  | Op.saveStore _ => true
  | _ => false

/-- Go map assignment `m[k] = v`: overwrite the binding of `k` if present,
otherwise append it. -/
def mapSet : List (String × String) → String → String → List (String × String)
  | [], k, v => [(k, v)]
  | e :: rest, k, v =>
    if e.1 = k then (k, v) :: rest else e :: mapSet rest k v

/-- Go map read `m[k]`, as an option. -/
def mapLookup : List (String × String) → String → Option String
  | [], _ => none
  | e :: rest, k => if e.1 = k then some e.2 else mapLookup rest k

/-- Embeds the loop body of src/main.go lines 91-105: day offset from the week
start via `(int(day) - int(startDate.Weekday()) + 7) % 7`, the occurrence date,
and the start/end instants obtained by combining the date with the parsed
time-of-day and adding the duration. -/
def resolveOccurrence (startDate day hour minute durationMin : Nat) : Nat × Nat :=
  let dayOffset := (day + 7 - weekday startDate) % 7
  let eventStart := startDate + dayOffset
  let finalStartTime := eventStart * 1440 + hour * 60 + minute
  (finalStartTime, finalStartTime + durationMin)

/-- Embeds the `calendar.Event` literal of src/main.go lines 107-130: weekly
recurrence, the template's color, default reminders force-disabled and replaced
by a single popup override at the template's lead time. -/
def buildEvent (template : EventTemplate) (timeZone : String) (startEnd : Nat × Nat) : CalEvent :=
  { summary := template.summary,
    description := template.description,
    startDateTime := startEnd.1,
    endDateTime := startEnd.2,
    timeZone := timeZone,
    recurrence := [("RRULE:FREQ=WEEKLY")],
    colorId := template.colorId,
    reminderOverrides := [(("popup"), template.reminderMin)],
    useDefault := false }

/-- Embeds the `for _, day := range template.daysOfWeek` loop of
src/main.go lines 90-137: per weekday, parse the time-of-day (a parse failure
aborts the template with an error), resolve the occurrence, build the event and
issue an insert; the first failed insert aborts the template with an error;
otherwise `lastEventId` tracks the most recently returned id. -/
def createLoop (ins : Nat → Except String String) (template : EventTemplate)
    (timeZone : String) (startDate : Nat) :
    List Nat → Nat → String → List Op × Nat × Except String String
  | [], cnt, lastEventId => ([], cnt, Except.ok lastEventId)
  | day :: rest, cnt, _lastEventId =>
    match parseHM template.startTime with
    | none => ([], cnt, Except.error ("error parsing time"))
    | some hm =>
      let se := resolveOccurrence startDate day hm.1 hm.2 template.duration
      let event := buildEvent template timeZone se
      match ins cnt with
      | Except.error msg =>
        ([Op.insert ("primary") event], cnt + 1,
          Except.error (("unable to create event: ") ++ msg))
      | Except.ok newId =>
        let r := createLoop ins template timeZone startDate rest (cnt + 1) newId
        (Op.insert ("primary") event :: r.1, r.2)

/-- Embeds `createRecurringEvent` of src/main.go lines 82-140: anchor to the
computed week start and run the per-weekday loop, starting from the zero-value
`lastEventId` of `var lastEventId string`.  Returns the issued operations, the
next insert-oracle index, and the Go `(string, error)` result. -/
def createRecurringEvent (ins : Nat → Except String String) (cnt : Nat)
    (template : EventTemplate) (timeZone : String) (now : Nat) :
    List Op × Nat × Except String String :=
  createLoop ins template timeZone (nextWeekStart now) template.daysOfWeek cnt ("")

/-- Embeds the template loop of main, src/main.go lines 286-295 (identically
lines 639-648): per template call `createRecurringEvent`; on error, report and
continue with the next template; on success record the returned id under the
template's summary. -/
def processTemplates (ins : Nat → Except String String) (timeZone : String) (now : Nat) :
    List EventTemplate → Nat → List (String × String) → List Op × Nat × List (String × String)
  | [], cnt, eventIds => ([], cnt, eventIds)
  | template :: rest, cnt, eventIds =>
    let r := createRecurringEvent ins cnt template timeZone now
    match r.2.2 with
    | Except.error _ =>
      let r2 := processTemplates ins timeZone now rest r.2.1 eventIds
      (r.1 ++ r2.1, r2.2)
    | Except.ok eventId =>
      let r2 := processTemplates ins timeZone now rest r.2.1 (mapSet eventIds template.summary eventId)
      (r.1 ++ r2.1, r2.2)

/-- Embeds the creation phase of main, src/main.go lines 282-300: process every
template starting from an empty id map and persist the resulting map with
`saveEventIds`. -/
def runCreate (ins : Nat → Except String String) (timeZone : String) (now : Nat)
    (templates : List EventTemplate) (cnt : Nat) : List Op × Nat × List (String × String) :=
  let r := processTemplates ins timeZone now templates cnt []
  (r.1 ++ [Op.saveStore r.2.2], r.2.1, r.2.2)

/-- The JSON syntax tree produced and consumed by encoding/json. -/
inductive Json where
  | null
  | bool (b : Bool)
  | num (n : Int)
  | str (s : String)
  | arr (elements : List Json)
  | obj (fields : List (String × Json))

/-- Byte-wise lexicographic comparison of character lists, the key order Go
`json.Marshal` uses for map keys. -/
def charListLe : List Char → List Char → Bool
  | [], _ => true
  | _ :: _, [] => false
  | a :: as, b :: bs =>
    if a.toNat < b.toNat then true
    else if b.toNat < a.toNat then false
    else charListLe as bs

/-- Key order of Go `json.Marshal` on map keys. -/
def keyLe (s t : String) : Bool := charListLe s.toList t.toList

/-- Insert one binding into a key-sorted list. -/
def orderedInsertKey (p : String × String) : List (String × String) → List (String × String)
  | [] => [p]
  | q :: rest => if keyLe p.1 q.1 then p :: q :: rest else q :: orderedInsertKey p rest

/-- Go `json.Marshal` emits the keys of a map in sorted order; this is that
key sort (an insertion sort). -/
def sortByKey : List (String × String) → List (String × String)
  | [] => []
  | p :: rest => orderedInsertKey p (sortByKey rest)

/-- Embeds `saveEventIds` of src/main.go lines 142-151 at the JSON level: the
file becomes an object with the single key `event_ids`, holding the id map as
an object with sorted keys and string values. -/
def saveEventIds (eventIds : List (String × String)) : Json :=
  Json.obj [(("event_ids"), Json.obj ((sortByKey eventIds).map (fun p => (p.1, Json.str p.2))))]

/-- Field lookup of Go `json.Unmarshal` on an object: with duplicate keys the
last occurrence wins. -/
def lookupField (key : String) : List (String × Json) → Option Json
  | [] => none
  | f :: rest =>
    match lookupField key rest with
    | some v => some v
    | none => if f.1 = key then some f.2 else none

/-- Go `json.Unmarshal` of an object into `map[string]string`: fields are
assigned in order (later duplicates overwrite), and a non-string value is a
decode error. -/
def readStringMapAux (acc : List (String × String)) :
    List (String × Json) → Option (List (String × String))
  | [] => some acc
  | f :: rest =>
    match f.2 with
    | Json.str v => readStringMapAux (mapSet acc f.1 v) rest
    | _ => none

/-- Embeds `loadEventIds` of src/main.go lines 458-472: an absent file yields
the empty map without error; otherwise the file must be an object whose
`event_ids` field (when present and non-null) decodes into a string map; a
missing or null field leaves the Go map nil, read back as empty. -/
def loadEventIds (file : Option Json) : Except String (List (String × String)) :=
  match file with
  | none => Except.ok []
  | some (Json.obj fields) =>
    match lookupField ("event_ids") fields with
    | some (Json.obj entries) =>
      match readStringMapAux [] entries with
      | some m => Except.ok m
      | none => Except.error ("json: cannot unmarshal")
    | some Json.null => Except.ok []
    | none => Except.ok []
    | some _ => Except.error ("json: cannot unmarshal")
  | some _ => Except.error ("json: cannot unmarshal")

/-- Embeds the `for summary, eventId := range eventIds` loop of
src/main.go lines 480-486: one delete request per stored id; a failed delete is
only logged, so both outcomes continue identically. -/
def deleteLoop (del : String → Except String Unit) : List (String × String) → List Op
  | [] => []
  | entry :: rest =>
    match del entry.2 with
    | Except.error _ => Op.delete ("primary") entry.2 :: deleteLoop del rest
    | Except.ok _ => Op.delete ("primary") entry.2 :: deleteLoop del rest

/-- Embeds `deleteExistingEvents` of src/main.go lines 474-489: a load error is
returned wrapped; otherwise every stored id is deleted and the function
returns nil. -/
def deleteExistingEvents (del : String → Except String Unit)
    (loaded : Except String (List (String × String))) : List Op × Except String Unit :=
  match loaded with
  | Except.error e => ([], Except.error (("error loading event IDs: ") ++ e))
  | Except.ok eventIds => (deleteLoop del eventIds, Except.ok ())

/-- Embeds the full run of main, src/main.go lines 626-653: load the stored
ids and delete them (a cleanup error is only logged), wait out the settling
delay (time only, no effect), create events for every template from scratch,
and persist the new id map. -/
def reconcileRun (ins : Nat → Except String String) (del : String → Except String Unit)
    (storeFile : Option Json) (templates : List EventTemplate) (timeZone : String) (now : Nat) :
    List Op × Nat × List (String × String) :=
  let cleanup := deleteExistingEvents del (loadEventIds storeFile)
  let r := processTemplates ins timeZone now templates 0 []
  (cleanup.1 ++ r.1 ++ [Op.saveStore r.2.2], r.2.1, r.2.2)

/-- The keys of an id map are pairwise distinct (the invariant of a Go map). -/
def keysNodup (m : List (String × String)) : Prop := (m.map Prod.fst).Nodup

/-- The time zone string hard-coded at src/main.go line 171. -/
def jakarta : String := "Asia/Jakarta"

/-- Equality of `Except` results is decidable when both components are. -/
instance {ε α : Type} [DecidableEq ε] [DecidableEq α] : DecidableEq (Except ε α) := fun a b =>
  match a, b with
  | Except.ok x, Except.ok y =>
    if h : x = y then isTrue (by rw [h]) else isFalse (fun hh => by cases hh; exact h rfl)
  | Except.error x, Except.error y =>
    if h : x = y then isTrue (by rw [h]) else isFalse (fun hh => by cases hh; exact h rfl)
  | Except.ok _, Except.error _ => isFalse (fun hh => by cases hh)
  | Except.error _, Except.ok _ => isFalse (fun hh => by cases hh)

/-- Concrete single-weekday template (Monday), used to exercise the runs. -/
def tmplWork : EventTemplate :=
  { summary := "Work", description := "w", startTime := "09:00",
    duration := 30, daysOfWeek := [1], reminderMin := 15, colorId := "1" }

/-- The example template of the spec: Standup on Tuesday and Thursday at
09:00, thirty minutes. -/
def tmplStandup : EventTemplate :=
  { summary := "Standup", description := "d", startTime := "09:00",
    duration := 30, daysOfWeek := [2, 4], reminderMin := 15, colorId := "1" }

/-- Template A of the failure-isolation scenario: one Monday occurrence. -/
def tmplA1 : EventTemplate :=
  { summary := "A", description := "a", startTime := "09:00",
    duration := 30, daysOfWeek := [1], reminderMin := 15, colorId := "1" }

/-- Template B of the failure-isolation scenario: Tuesday and Wednesday. -/
def tmplB2 : EventTemplate :=
  { summary := "B", description := "b", startTime := "09:00",
    duration := 30, daysOfWeek := [2, 3], reminderMin := 15, colorId := "1" }

/-- Template C of the failure-isolation scenario: one Thursday occurrence. -/
def tmplC1 : EventTemplate :=
  { summary := "C", description := "c", startTime := "09:00",
    duration := 30, daysOfWeek := [4], reminderMin := 15, colorId := "1" }

/-- A template whose weekday list is empty. -/
def tmplEmptyDays : EventTemplate :=
  { summary := "NoDays", description := "n", startTime := "09:00",
    duration := 30, daysOfWeek := [], reminderMin := 15, colorId := "1" }

/-- Insert oracle on which every create succeeds with a fixed fresh id. -/
def insNew : Nat → Except String String := fun _ => Except.ok ("newid")

/-- Delete oracle of a remote whose events were all removed out-of-band. -/
def delGone : String → Except String Unit := fun _ => Except.error ("not found")

/-- Delete oracle on which every delete succeeds. -/
def delOk : String → Except String Unit := fun _ => Except.ok ()

/-- Insert oracle of the first run of the repeated-run scenario. -/
def insRun1 : Nat → Except String String := fun _ => Except.ok ("r1a")

/-- Insert oracle of the second run: the remote returns a fresh id, distinct
from anything it returned earlier. -/
def insRun2 : Nat → Except String String := fun _ => Except.ok ("r2a")

/-- Insert oracle of the partial-failure scenario: call 0 (template A) and
call 3 (template C) succeed, call 1 (B's first occurrence) succeeds, call 2
(B's second occurrence) fails. -/
def insC4partial : Nat → Except String String := fun n =>
  match n with
  | 0 => Except.ok ("ida")
  | 1 => Except.ok ("idb1")
  | 2 => Except.error ("boom")
  | _ => Except.ok ("idc")

/-- Insert oracle on which template B fails outright: A's call 0 succeeds,
B's call 1 fails (so B is aborted and issues no further call), and C's call 2
succeeds. -/
def insC4allB : Nat → Except String String := fun n =>
  match n with
  | 0 => Except.ok ("ida")
  | 1 => Except.error ("boom")
  | _ => Except.ok ("idc")

/-- Insert oracle whose first call fails and whose later calls succeed. -/
def insC5 : Nat → Except String String := fun n =>
  match n with
  | 0 => Except.error ("boom")
  | _ => Except.ok ("x")

/-- Insert oracle of the Standup example: the Tuesday occurrence gets one id,
the Thursday occurrence another. -/
def insStandup : Nat → Except String String := fun n =>
  match n with
  | 0 => Except.ok ("id-tue")
  | _ => Except.ok ("id-thu")

/-- The ids returned by `insStandup`, as a plain function. -/
def fStandup : Nat → String := fun n =>
  match n with
  | 0 => "id-tue"
  | _ => "id-thu"

/-- A filter by a predicate that is false on every element is empty. -/
theorem filter_eq_nil_of_all_false {α : Type} (p : α → Bool) :
    ∀ l : List α, (∀ x ∈ l, p x = false) → l.filter p = [] := by
  intro l
  induction l with
  | nil => intro _; rfl
  | cons a rest ih =>
    intro h
    have ha := h a (by simp)
    simp [List.filter, ha, ih (fun x hx => h x (by simp [hx]))]

/-- Every operation the per-weekday loop issues is an insert. -/
theorem createLoop_mem_insert (ins : Nat → Except String String) (template : EventTemplate)
    (timeZone : String) (startDate : Nat) :
    ∀ days cnt lastEventId op,
      op ∈ (createLoop ins template timeZone startDate days cnt lastEventId).1 →
      op.isInsert = true := by
  intro days
  induction days with
  | nil => intro cnt last op h; simp [createLoop] at h
  | cons d rest ih =>
    intro cnt last op h
    simp only [createLoop] at h
    cases hp : parseHM template.startTime with
    | none => rw [hp] at h; simp at h
    | some hm =>
      rw [hp] at h
      cases hi : ins cnt with
      | error msg =>
        rw [hi] at h
        simp at h
        subst h
        rfl
      | ok newId =>
        rw [hi] at h
        simp only [List.mem_cons] at h
        rcases h with h | h
        · subst h; rfl
        · exact ih (cnt + 1) newId op h

/-- Every operation the template loop of main issues is an insert. -/
theorem processTemplates_mem_insert (ins : Nat → Except String String)
    (timeZone : String) (now : Nat) :
    ∀ templates cnt eventIds op,
      op ∈ (processTemplates ins timeZone now templates cnt eventIds).1 →
      op.isInsert = true := by
  intro templates
  induction templates with
  | nil => intro cnt acc op h; simp [processTemplates] at h
  | cons t rest ih =>
    intro cnt acc op h
    simp only [processTemplates] at h
    cases hc : (createRecurringEvent ins cnt t timeZone now).2.2 with
    | error msg =>
      rw [hc] at h
      simp only [List.mem_append] at h
      rcases h with h | h
      · exact createLoop_mem_insert ins t timeZone (nextWeekStart now)
          t.daysOfWeek cnt ("") op h
      · exact ih _ _ op h
    | ok eventId =>
      rw [hc] at h
      simp only [List.mem_append] at h
      rcases h with h | h
      · exact createLoop_mem_insert ins t timeZone (nextWeekStart now)
          t.daysOfWeek cnt ("") op h
      · exact ih _ _ op h

/-- The cleanup loop issues exactly one delete per stored entry, whatever the
delete oracle answers. -/
theorem deleteLoop_eq (del : String → Except String Unit) :
    ∀ l, deleteLoop del l = l.map (fun e => Op.delete ("primary") e.2) := by
  intro l
  induction l with
  | nil => rfl
  | cons e rest ih =>
    cases h : del e.2 <;> simp [deleteLoop, h, ih]

/-- On an always-succeeding insert oracle, the per-weekday loop of a template
with a parsable time and weekdays `day :: rest` issues `rest.length + 1`
inserts, advances the oracle index accordingly, and returns the id of the last
insert. -/
theorem createLoop_ok (ins : Nat → Except String String) (f : Nat → String)
    (template : EventTemplate) (timeZone : String) (startDate : Nat)
    (hins : ∀ n, ins n = Except.ok (f n)) (hm : Nat × Nat)
    (hp : parseHM template.startTime = some hm) :
    ∀ rest day cnt lastEventId,
      (createLoop ins template timeZone startDate (day :: rest) cnt lastEventId).2.2 =
        Except.ok (f (cnt + rest.length)) ∧
      (createLoop ins template timeZone startDate (day :: rest) cnt lastEventId).2.1 =
        cnt + rest.length + 1 ∧
      (createLoop ins template timeZone startDate (day :: rest) cnt lastEventId).1.length =
        rest.length + 1 := by
  intro rest
  induction rest with
  | nil =>
    intro day cnt last
    simp [createLoop, hp, hins cnt]
  | cons e rest2 ih =>
    intro day cnt last
    have h2 := ih e (cnt + 1) (f cnt)
    simp only [createLoop, hp, hins cnt] at *
    refine ⟨?_, ?_, ?_⟩
    · rw [h2.1]
      have he : cnt + 1 + rest2.length = cnt + (e :: rest2).length := by
        simp [List.length_cons]; omega
      rw [he]
    · rw [h2.2.1]
      simp [List.length_cons]
      omega
    · simp only [List.length_cons, h2.2.2]

/-- Assigning an absent key appends the binding. -/
theorem mapSet_append : ∀ (acc : List (String × String)) (k v : String),
    mapLookup acc k = none → mapSet acc k v = acc ++ [(k, v)] := by
  intro acc
  induction acc with
  | nil => intro k v _; rfl
  | cons e rest ih =>
    intro k v h
    simp only [mapLookup] at h
    by_cases he : e.1 = k
    · simp [he] at h
    · simp only [mapSet, if_neg he, List.cons_append, List.cons.injEq, true_and]
      exact ih k v (by simpa [he] using h)

/-- A key absent from a list and different from an appended binding's key is
absent from the extended list. -/
theorem mapLookup_append_none : ∀ (acc : List (String × String)) (k v x : String),
    mapLookup acc x = none → x ≠ k → mapLookup (acc ++ [(k, v)]) x = none := by
  intro acc
  induction acc with
  | nil =>
    intro k v x _ hxk
    simp only [List.nil_append, mapLookup]
    rw [if_neg (fun h => hxk h.symm)]
  | cons e rest ih =>
    intro k v x h hxk
    simp only [mapLookup] at h
    by_cases he : e.1 = x
    · simp [he] at h
    · simp only [List.cons_append, mapLookup, if_neg he]
      exact ih k v x (by simpa [he] using h) hxk

/-- Decoding the string-map fields built from a list with pairwise-distinct
keys, none of which is bound in the accumulator, appends the list to the
accumulator. -/
theorem readAux : ∀ (l acc : List (String × String)),
    (∀ p ∈ l, mapLookup acc p.1 = none) → keysNodup l →
    readStringMapAux acc (l.map (fun p => (p.1, Json.str p.2))) = some (acc ++ l) := by
  intro l
  induction l with
  | nil => intro acc _ _; simp [readStringMapAux]
  | cons p rest ih =>
    intro acc hl hnd
    simp only [keysNodup, List.map_cons, List.nodup_cons] at hnd
    simp only [List.map_cons, readStringMapAux]
    rw [mapSet_append acc p.1 p.2 (hl p (by simp))]
    rw [ih (acc ++ [(p.1, p.2)]) ?_ hnd.2]
    · simp
    · intro q hq
      apply mapLookup_append_none
      · exact hl q (by simp [hq])
      · intro hqp
        exact hnd.1 (hqp ▸ List.mem_map_of_mem Prod.fst hq)

/-- Inserting into a key-sorted list permutes consing. -/
theorem orderedInsertKey_perm (p : String × String) :
    ∀ l, (orderedInsertKey p l).Perm (p :: l) := by
  intro l
  induction l with
  | nil => exact List.Perm.refl _
  | cons q rest ih =>
    by_cases h : keyLe p.1 q.1
    · simp [orderedInsertKey, h]
    · simp only [orderedInsertKey, h, Bool.false_eq_true, if_false]
      exact (ih.cons q).trans (List.Perm.swap p q rest)

/-- The key sort permutes the map. -/
theorem sortByKey_perm : ∀ m, (sortByKey m).Perm m := by
  intro m
  induction m with
  | nil => exact List.Perm.refl _
  | cons p rest ih =>
    exact (orderedInsertKey_perm p (sortByKey rest)).trans (ih.cons p)

/-- Sorting a map with pairwise-distinct keys keeps its keys
pairwise distinct. -/
theorem keysNodup_sortByKey (m : List (String × String)) (h : keysNodup m) :
    keysNodup (sortByKey m) := by
  exact (((sortByKey_perm m).map Prod.fst).symm).nodup h

/-- Permuting a map with pairwise-distinct keys does not change lookups. -/
theorem mapLookup_perm : ∀ {l l2 : List (String × String)}, l.Perm l2 →
    keysNodup l → ∀ k, mapLookup l k = mapLookup l2 k := by
  intro l l2 hp
  induction hp with
  | nil => intro _ k; rfl
  | cons x p ih =>
    intro hnd k
    simp only [keysNodup, List.map_cons, List.nodup_cons] at hnd
    simp only [mapLookup]
    by_cases hx : x.1 = k
    · simp [hx]
    · simp only [if_neg hx]
      exact ih hnd.2 k
  | swap x y l =>
    intro hnd k
    simp only [keysNodup, List.map_cons, List.nodup_cons, List.mem_cons] at hnd
    have hyx : y.1 ≠ x.1 := fun h => hnd.1 (Or.inl h)
    simp only [mapLookup]
    by_cases h1 : y.1 = k <;> by_cases h2 : x.1 = k
    · exact absurd (h1.trans h2.symm) hyx
    · simp [h1, h2]
    · simp [h1, h2]
    · simp [h1, h2]
  | trans p1 p2 ih1 ih2 =>
    intro hnd k
    have hnd2 : keysNodup _ := ((p1.map Prod.fst)).nodup hnd
    rw [ih1 hnd k, ih2 hnd2 k]

/-- Claim C1 counterexample: 2024-01-01 (civil day 19723) is a Monday, and
there the offset `(8 - weekday) % 7` is 0, so the computed anchor equals `now`
itself — it is not strictly after `now` and the offset is not in 1..7. -/
theorem C1_cex :
    weekday 19723 = 1 ∧
    daysUntilMonday 19723 = 0 ∧
    nextWeekStart 19723 = 19723 ∧
    ¬ (19723 < nextWeekStart 19723) := by
  decide

/-- Claim C1 amended: the anchor `nextWeekStart now` always falls on a Monday
and lies within `[now, now + 6]`; it equals `now` exactly when `now` is itself
a Monday (offset 0), and otherwise is strictly after `now`. -/
theorem C1_amended (now : Nat) :
    weekday (nextWeekStart now) = 1 ∧
    now ≤ nextWeekStart now ∧
    nextWeekStart now ≤ now + 6 ∧
    (nextWeekStart now = now ↔ weekday now = 1) ∧
    (weekday now = 1 ∨ now < nextWeekStart now) := by
  unfold nextWeekStart daysUntilMonday weekday
  omega

/-- Claim C1 amended, witness at the Tuesday 2024-01-02 (civil day 19724):
the anchor is the following Monday, 2024-01-08 (civil day 19730). -/
theorem C1_amended_witness :
    (weekday (nextWeekStart 19724) = 1 ∧
      19724 ≤ nextWeekStart 19724 ∧
      nextWeekStart 19724 ≤ 19724 + 6 ∧
      (nextWeekStart 19724 = 19724 ↔ weekday 19724 = 1) ∧
      (weekday 19724 = 1 ∨ 19724 < nextWeekStart 19724)) ∧
    nextWeekStart 19724 = 19730 := by
  exact ⟨C1_amended 19724, by decide⟩

/-- Claim C7: the occurrence date is the week start plus
`(day - weekday(weekStart) + 7) % 7` days, hence within
`[weekStart, weekStart + 6]`; the start instant combines that date with the
time-of-day, the end instant adds the duration; for a Monday week start the
Wednesday occurrence is exactly 2 days after the week start. -/
theorem C7_resolveOccurrence (startDate day hour minute durationMin : Nat) :
    (resolveOccurrence startDate day hour minute durationMin).1 =
      (startDate + (day + 7 - weekday startDate) % 7) * 1440 + hour * 60 + minute ∧
    (resolveOccurrence startDate day hour minute durationMin).2 =
      (resolveOccurrence startDate day hour minute durationMin).1 + durationMin ∧
    startDate ≤ startDate + (day + 7 - weekday startDate) % 7 ∧
    startDate + (day + 7 - weekday startDate) % 7 ≤ startDate + 6 ∧
    (weekday startDate = 1 → day = 3 →
      startDate + (day + 7 - weekday startDate) % 7 = startDate + 2) := by
  refine ⟨rfl, rfl, by omega, by omega, ?_⟩
  intro h1 h2
  subst h2
  rw [h1]

/-- Claim C7 witness at the Monday 2024-01-01 (civil day 19723), Wednesday
occurrence at 07:00 for 30 minutes: the start is on 2024-01-03. -/
theorem C7_resolveOccurrence_witness :
    ((resolveOccurrence 19723 3 7 0 30).1 =
        (19723 + (3 + 7 - weekday 19723) % 7) * 1440 + 7 * 60 + 0 ∧
      (resolveOccurrence 19723 3 7 0 30).2 = (resolveOccurrence 19723 3 7 0 30).1 + 30 ∧
      19723 ≤ 19723 + (3 + 7 - weekday 19723) % 7 ∧
      19723 + (3 + 7 - weekday 19723) % 7 ≤ 19723 + 6 ∧
      (weekday 19723 = 1 → 3 = 3 → 19723 + (3 + 7 - weekday 19723) % 7 = 19723 + 2)) ∧
    (resolveOccurrence 19723 3 7 0 30).1 = 19725 * 1440 + 420 := by
  exact ⟨C7_resolveOccurrence 19723 3 7 0 30, by decide⟩

/-- Claim C9: bulk cleanup issues exactly one delete per recorded id, for any
answers of the delete oracle (so individual failures do not abort the batch),
returns success, and issues no store write. -/
theorem C9_bulk_cleanup (del : String → Except String Unit) (eventIds : List (String × String)) :
    (deleteExistingEvents del (Except.ok eventIds)).1 =
      eventIds.map (fun e => Op.delete ("primary") e.2) ∧
    (deleteExistingEvents del (Except.ok eventIds)).2 = Except.ok () ∧
    (deleteExistingEvents del (Except.ok eventIds)).1.filter Op.isSave = [] := by
  refine ⟨deleteLoop_eq del eventIds, rfl, ?_⟩
  apply filter_eq_nil_of_all_false
  intro op hop
  have h := deleteLoop_eq del eventIds
  rw [show (deleteExistingEvents del (Except.ok eventIds)).1 = deleteLoop del eventIds from rfl,
    h] at hop
  simp only [List.mem_map] at hop
  obtain ⟨e, _, he⟩ := hop
  rw [← he]
  rfl

/-- Claim C9 witness: two stored ids on an oracle where every delete fails
still produce two delete requests, success, and no store write. -/
theorem C9_bulk_cleanup_witness :
    (deleteExistingEvents delGone (Except.ok [("A", "x"), ("B", "y")])).1 =
      [("A", "x"), ("B", "y")].map (fun e => Op.delete ("primary") e.2) ∧
    (deleteExistingEvents delGone (Except.ok [("A", "x"), ("B", "y")])).2 = Except.ok () ∧
    (deleteExistingEvents delGone (Except.ok [("A", "x"), ("B", "y")])).1.filter Op.isSave = [] := by
  exact C9_bulk_cleanup delGone [("A", "x"), ("B", "y")]

/-- Claim C10: a template with an empty weekday list issues no request and
returns the zero-value id with no error, so the run records the empty string
for that title. -/
theorem C10_empty_days (ins : Nat → Except String String) (cnt : Nat)
    (template : EventTemplate) (timeZone : String) (now : Nat)
    (hd : template.daysOfWeek = []) :
    createRecurringEvent ins cnt template timeZone now = ([], cnt, Except.ok ("")) ∧
    mapLookup (runCreate ins timeZone now [template] cnt).2.2 template.summary = some ("") := by
  have h1 : createRecurringEvent ins cnt template timeZone now = ([], cnt, Except.ok ("")) := by
    simp [createRecurringEvent, hd, createLoop]
  refine ⟨h1, ?_⟩
  simp [runCreate, processTemplates, h1, mapSet, mapLookup]

/-- Claim C10 witness on a concrete empty-weekday template. -/
theorem C10_empty_days_witness :
    createRecurringEvent insNew 0 tmplEmptyDays jakarta 19722 = ([], 0, Except.ok ("")) ∧
    mapLookup (runCreate insNew jakarta 19722 [tmplEmptyDays] 0).2.2 tmplEmptyDays.summary =
      some ("") := by
  exact C10_empty_days insNew 0 tmplEmptyDays jakarta 19722 rfl

/-- Claim C2 counterexample: with the title Work present in the loaded store,
a full run issues no get and no update request at all, yet issues an insert
and records a fresh id — creation is not guarded by a failed fetch or
update of the stored id. -/
theorem C2_cex :
    (reconcileRun insNew delGone (some (saveEventIds [("Work", "oldid")]))
        [tmplWork] jakarta 19722).1.filter Op.isGetOrUpdate = [] ∧
    ((reconcileRun insNew delGone (some (saveEventIds [("Work", "oldid")]))
        [tmplWork] jakarta 19722).1.filter Op.isInsert).length = 1 ∧
    mapLookup (reconcileRun insNew delGone (some (saveEventIds [("Work", "oldid")]))
        [tmplWork] jakarta 19722).2.2 ("Work") = some ("newid") := by
  decide

/-- Claim C2 amended: the engine has no update path: a run issues no get and
no update request for any store, template set, or oracle; the loaded store is
consulted only by the preceding cleanup pass, and every template
unconditionally takes the create path.  Consequently, for a title whose stored
id points to a remotely deleted event, a run still creates a replacement and
records the newly returned id for that title. -/
theorem C2_amended :
    (∀ (ins : Nat → Except String String) (del : String → Except String Unit)
        (storeFile : Option Json) (templates : List EventTemplate)
        (timeZone : String) (now : Nat),
      (reconcileRun ins del storeFile templates timeZone now).1.filter Op.isGetOrUpdate = []) ∧
    mapLookup (reconcileRun insNew delGone (some (saveEventIds [("Work", "oldid")]))
        [tmplWork] jakarta 19722).2.2 ("Work") = some ("newid") ∧
    ((reconcileRun insNew delGone (some (saveEventIds [("Work", "oldid")]))
        [tmplWork] jakarta 19722).1.filter Op.isDelete).length = 1 := by
  refine ⟨?_, by decide, by decide⟩
  intro ins del storeFile templates timeZone now
  apply filter_eq_nil_of_all_false
  intro op hop
  have hop2 : op ∈ (deleteExistingEvents del (loadEventIds storeFile)).1 ++
      (processTemplates ins timeZone now templates 0 []).1 ++
      [Op.saveStore (processTemplates ins timeZone now templates 0 []).2.2] := hop
  simp only [List.mem_append, List.mem_singleton] at hop2
  rcases hop2 with (h | h) | h
  · cases hload : loadEventIds storeFile with
    | error e => rw [hload] at h; simp [deleteExistingEvents] at h
    | ok ids =>
      rw [hload] at h
      simp only [deleteExistingEvents, deleteLoop_eq, List.mem_map] at h
      obtain ⟨e, _, he⟩ := h
      rw [← he]
      rfl
  · have hi := processTemplates_mem_insert ins timeZone now templates 0 [] op h
    cases op <;> first | rfl | simp [Op.isInsert] at hi
  · subst h
    rfl

/-- Claim C3 counterexample: two successive runs over the same single-template
set, with every delete succeeding and the remote returning fresh ids: the
second run still issues one create (the claim says it issues none), and the
store it persists carries a different id for the same title than the first
run's store. -/
theorem C3_cex :
    (reconcileRun insRun1 delOk none [tmplWork] jakarta 19722).2.2 = [("Work", "r1a")] ∧
    ((reconcileRun insRun2 delOk (some (saveEventIds [("Work", "r1a")]))
        [tmplWork] jakarta 19722).1.filter Op.isInsert).length = 1 ∧
    (reconcileRun insRun2 delOk (some (saveEventIds [("Work", "r1a")]))
        [tmplWork] jakarta 19722).2.2 = [("Work", "r2a")] ∧
    ¬ ((reconcileRun insRun2 delOk (some (saveEventIds [("Work", "r1a")]))
          [tmplWork] jakarta 19722).1.filter Op.isInsert = [] ∧
        (reconcileRun insRun2 delOk (some (saveEventIds [("Work", "r1a")]))
            [tmplWork] jakarta 19722).2.2 =
          (reconcileRun insRun1 delOk none [tmplWork] jakarta 19722).2.2) := by
  decide

/-- Claim C3 amended: re-running is not update-only and not id-stable: the
second run first deletes the event recorded by the first run, then issues
exactly as many creates as the first run did; the store persisted by the
second run binds the same titles, but to the ids freshly returned by the
second run's creates, so it equals the first store only if the remote returns
identical ids again. -/
theorem C3_amended :
    ((reconcileRun insRun2 delOk (some (saveEventIds [("Work", "r1a")]))
        [tmplWork] jakarta 19722).1.filter Op.isInsert).length =
      ((reconcileRun insRun1 delOk none [tmplWork] jakarta 19722).1.filter Op.isInsert).length ∧
    ((reconcileRun insRun2 delOk (some (saveEventIds [("Work", "r1a")]))
        [tmplWork] jakarta 19722).1.filter Op.isDelete).length = 1 ∧
    (reconcileRun insRun2 delOk (some (saveEventIds [("Work", "r1a")]))
        [tmplWork] jakarta 19722).2.2.map Prod.fst =
      (reconcileRun insRun1 delOk none [tmplWork] jakarta 19722).2.2.map Prod.fst ∧
    (reconcileRun insRun2 delOk (some (saveEventIds [("Work", "r1a")]))
        [tmplWork] jakarta 19722).2.2 = [("Work", "r2a")] := by
  decide

/-- Claim C4 counterexample: template B has two occurrences; its first create
(call 1) succeeds and its second (call 2) fails.  All four inserts of the run
are issued, yet the persisted store has no entry for B — so the store does not
contain an entry for every template with at least one successful create. -/
theorem C4_cex :
    insC4partial 1 = Except.ok ("idb1") ∧
    ((runCreate insC4partial jakarta 19722 [tmplA1, tmplB2, tmplC1] 0).1.filter
        Op.isInsert).length = 4 ∧
    mapLookup (runCreate insC4partial jakarta 19722 [tmplA1, tmplB2, tmplC1] 0).2.2 ("B") =
      none := by
  decide

/-- Claim C4 amended: the persisted store contains an entry for a template
exactly when all of its create calls succeeded (an empty weekday list counts
as success); a template any of whose creates failed is omitted even when an
earlier occurrence was created.  Failure isolation holds: whether B fails on
one call or on all calls, A and C are recorded, B is absent, and the run still
persists the store. -/
theorem C4_amended :
    (runCreate insC4partial jakarta 19722 [tmplA1, tmplB2, tmplC1] 0).2.2 =
      [("A", "ida"), ("C", "idc")] ∧
    (runCreate insC4allB jakarta 19722 [tmplA1, tmplB2, tmplC1] 0).2.2 =
      [("A", "ida"), ("C", "idc")] ∧
    (runCreate insC4partial jakarta 19722 [tmplA1, tmplB2, tmplC1] 0).1.filter Op.isSave =
      [Op.saveStore [("A", "ida"), ("C", "idc")]] := by
  decide

/-- Claim C5 counterexample: template B has two occurrences and its first
create fails; the loop issues only that one insert and aborts the template
with an error — the second occurrence is never attempted although the oracle
would have accepted it. -/
theorem C5_cex :
    tmplB2.daysOfWeek.length = 2 ∧
    (createRecurringEvent insC5 0 tmplB2 jakarta 19722).1.length = 1 ∧
    (createRecurringEvent insC5 0 tmplB2 jakarta 19722).2.2 =
      Except.error ("unable to create event: boom") ∧
    insC5 1 = Except.ok ("x") := by
  decide

/-- Claim C5 amended: when the create of the first occurrence of a template
fails, the whole template is aborted — exactly one insert is issued and the
remaining occurrences are skipped, with the error reported — and the run then
continues with the remaining templates exactly as if it had started there,
leaving the id map untouched for the failed template. -/
theorem C5_amended (ins : Nat → Except String String) (template : EventTemplate)
    (others : List EventTemplate) (timeZone : String) (now cnt : Nat)
    (acc : List (String × String)) (day : Nat) (rest : List Nat)
    (hm : Nat × Nat) (msg : String)
    (hp : parseHM template.startTime = some hm)
    (hd : template.daysOfWeek = day :: rest)
    (hi : ins cnt = Except.error msg) :
    (createRecurringEvent ins cnt template timeZone now).1.length = 1 ∧
    (createRecurringEvent ins cnt template timeZone now).2.2 =
      Except.error (("unable to create event: ") ++ msg) ∧
    processTemplates ins timeZone now (template :: others) cnt acc =
      ((createRecurringEvent ins cnt template timeZone now).1 ++
          (processTemplates ins timeZone now others (cnt + 1) acc).1,
        (processTemplates ins timeZone now others (cnt + 1) acc).2) := by
  have h1 : createRecurringEvent ins cnt template timeZone now =
      ([Op.insert ("primary") (buildEvent template timeZone
          (resolveOccurrence (nextWeekStart now) day hm.1 hm.2 template.duration))],
        cnt + 1, Except.error (("unable to create event: ") ++ msg)) := by
    simp [createRecurringEvent, hd, createLoop, hp, hi]
  refine ⟨by simp [h1], by simp [h1], ?_⟩
  simp only [processTemplates, h1]

/-- Claim C5 amended, witness: template B (Tuesday and Wednesday) whose first
create fails on oracle `insC5`, followed by template C. -/
theorem C5_amended_witness :
    ((createRecurringEvent insC5 0 tmplB2 jakarta 19722).1.length = 1 ∧
      (createRecurringEvent insC5 0 tmplB2 jakarta 19722).2.2 =
        Except.error (("unable to create event: ") ++ ("boom")) ∧
      processTemplates insC5 jakarta 19722 [tmplB2, tmplC1] 0 [] =
        ((createRecurringEvent insC5 0 tmplB2 jakarta 19722).1 ++
            (processTemplates insC5 jakarta 19722 [tmplC1] 1 []).1,
          (processTemplates insC5 jakarta 19722 [tmplC1] 1 []).2)) ∧
    mapLookup (processTemplates insC5 jakarta 19722 [tmplB2, tmplC1] 0 []).2.2 ("C") =
      some ("x") := by
  exact ⟨C5_amended insC5 tmplB2 [tmplC1] jakarta 19722 0 [] 2 [3] (9, 0) ("boom")
    (by decide) rfl rfl, by decide⟩

/-- Claim C6: on the create path with weekdays `day :: rest` whose creations
all succeed, exactly `rest.length + 1` create calls are made and the id the
run records for the template's title is the one returned by the last created
occurrence, the final weekday in the list. -/
theorem C6_last_id (ins : Nat → Except String String) (f : Nat → String)
    (template : EventTemplate) (timeZone : String) (now cnt : Nat)
    (day : Nat) (rest : List Nat) (hm : Nat × Nat)
    (hins : ∀ n, ins n = Except.ok (f n))
    (hp : parseHM template.startTime = some hm)
    (hd : template.daysOfWeek = day :: rest) :
    (createRecurringEvent ins cnt template timeZone now).2.2 =
      Except.ok (f (cnt + rest.length)) ∧
    mapLookup (runCreate ins timeZone now [template] cnt).2.2 template.summary =
      some (f (cnt + rest.length)) ∧
    (createRecurringEvent ins cnt template timeZone now).1.length = rest.length + 1 := by
  have h := createLoop_ok ins f template timeZone (nextWeekStart now) hins hm hp rest day cnt ("")
  have h1 : (createRecurringEvent ins cnt template timeZone now).2.2 =
      Except.ok (f (cnt + rest.length)) := by
    simp only [createRecurringEvent, hd]
    exact h.1
  refine ⟨h1, ?_, by simp only [createRecurringEvent, hd]; exact h.2.2⟩
  simp only [runCreate, processTemplates, h1]
  simp [mapSet, mapLookup]

/-- Claim C6 witness, the spec's example: Standup on Tuesday and Thursday of
the week of Monday 2024-01-01 (anchored from Sunday, civil day 19722): two
create calls, at 09:00 on 2024-01-02 and 2024-01-04, and the recorded id is
the one of the 2024-01-04 occurrence. -/
theorem C6_last_id_witness :
    ((createRecurringEvent insStandup 0 tmplStandup jakarta 19722).2.2 =
        Except.ok (fStandup (0 + [4].length)) ∧
      mapLookup (runCreate insStandup jakarta 19722 [tmplStandup] 0).2.2 tmplStandup.summary =
        some (fStandup (0 + [4].length)) ∧
      (createRecurringEvent insStandup 0 tmplStandup jakarta 19722).1.length = [4].length + 1) ∧
    fStandup (0 + [4].length) = ("id-thu") ∧
    ((runCreate insStandup jakarta 19722 [tmplStandup] 0).1.filter Op.isInsert).map
        (fun op => match op with | Op.insert _ e => e.startDateTime | _ => 0) =
      [19724 * 1440 + 540, 19726 * 1440 + 540] := by
  exact ⟨C6_last_id insStandup fStandup tmplStandup jakarta 19722 0 2 [4] (9, 0)
    (fun n => by cases n <;> rfl) (by decide) rfl, by decide, by decide⟩

/-- Claim C8: marshalling a title-to-id map with pairwise-distinct keys to the
store file format and loading it back succeeds and yields the same mapping
(the sorted map, binding every title to the same id), and loading an absent
file yields the empty mapping without an error. -/
theorem C8_roundtrip (m : List (String × String)) (hnd : keysNodup m) (hne : m ≠ []) :
    loadEventIds (some (saveEventIds m)) = Except.ok (sortByKey m) ∧
    (∀ k, mapLookup (sortByKey m) k = mapLookup m k) ∧
    loadEventIds none = Except.ok [] := by
  have hnds : keysNodup (sortByKey m) := keysNodup_sortByKey m hnd
  refine ⟨?_, fun k => mapLookup_perm (sortByKey_perm m) hnds k, rfl⟩
  have hread := readAux (sortByKey m) [] (fun p _ => rfl) hnds
  simp [saveEventIds, loadEventIds, lookupField, hread]

/-- Claim C8 witness on the two-entry map from B and A: the reloaded map is
the key-sorted one, with identical lookups. -/
theorem C8_roundtrip_witness :
    (loadEventIds (some (saveEventIds [("B", "2"), ("A", "1")])) =
        Except.ok (sortByKey [("B", "2"), ("A", "1")]) ∧
      (∀ k, mapLookup (sortByKey [("B", "2"), ("A", "1")]) k =
        mapLookup [("B", "2"), ("A", "1")] k) ∧
      loadEventIds none = Except.ok []) ∧
    sortByKey [("B", "2"), ("A", "1")] = [("A", "1"), ("B", "2")] := by
  exact ⟨C8_roundtrip [("B", "2"), ("A", "1")] (by unfold keysNodup; decide) (by decide),
    by decide⟩
